import Mathlib

/-!
Shallow embedding of the DHCP client engine of the Ethercard_ESP repository
(src/Ethercard_ESP/dhcp.cpp, declarations in src/Ethercard_ESP/EtherCard.h).

The mutable globals of dhcp.cpp (EtherCard's static network configuration
arrays together with the static session variables of dhcp.cpp) are gathered
into one record `DhcpGlobals`.  The free-running millisecond clock `millis()`
is passed to each step as an explicit `now` argument; all 32-bit arithmetic
is done on `Nat` with explicit reduction modulo 2^32.  Received frames are
byte lists indexed from the start of the Ethernet frame, exactly as the code
indexes the shared packet buffer `gPB`; transmitted messages are produced as
the byte list handed to `udpTransmit` (the UDP payload, starting at the
fixed 236-byte BOOTP header).  The C callback pointer
`dhcpCustomOptionCallback` is modelled by a `callbackRegistered` flag plus
the list of invocation events the code performs; the code performs the
indirect call unconditionally, so events are recorded regardless of the
flag, which mirrors the source faithfully (including its missing NULL
guard).
-/

namespace EthercardESP

/-- DHCP state enumeration values, in the order declared in EtherCard.h. -/
def DHCP_STATE_INIT : Nat := 0

/-- SELECTING state (EtherCard.h enum). -/
def DHCP_STATE_SELECTING : Nat := 1

/-- REQUESTING state (EtherCard.h enum). -/
def DHCP_STATE_REQUESTING : Nat := 2

/-- BOUND state (EtherCard.h enum). -/
def DHCP_STATE_BOUND : Nat := 3

/-- RENEWING state (EtherCard.h enum). -/
def DHCP_STATE_RENEWING : Nat := 4

/-- RELEASING state (EtherCard.h enum). -/
def DHCP_STATE_RELEASING : Nat := 5

/-- RELEASED state (EtherCard.h enum). -/
def DHCP_STATE_RELEASED : Nat := 6

/-- Per-state timeout in milliseconds (dhcp.cpp: DHCP_REQUEST_TIMEOUT). -/
def DHCP_REQUEST_TIMEOUT : Nat := 10000

/-- Sentinel lease duration meaning an infinite lease (dhcp.cpp). -/
def DHCP_INFINITE_LEASE : Nat := 4294967295

/-- Modelled from the spec: the header net.h is not under src/.  Per the
spec the wire format is DHCP over UDP/IPv4/Ethernet (RFC 2131), so the UDP
payload begins after the 14-byte Ethernet, 20-byte IPv4 and 8-byte UDP
headers: offset 42. -/
def UDP_DATA_P : Nat := 42

/-- Modelled from the spec: offset of the high octet of the big-endian UDP
source port in the frame (net.h constant missing from src/). -/
def UDP_SRC_PORT_H_P : Nat := 34

/-- Modelled from the spec: offset of the low octet of the big-endian UDP
source port in the frame (net.h constant missing from src/). -/
def UDP_SRC_PORT_L_P : Nat := 35

/-- Size in bytes of the fixed BOOTP header (struct DHCPdata). -/
def DHCP_HEADER_SIZE : Nat := 236

/-- Reduction modulo 2^32, the arithmetic of uint32_t. -/
def u32 (n : Nat) : Nat := n % 4294967296

/-- Wrap-tolerant uint32_t subtraction a - b, as the code's
`millis() - stateTimer` computes it. -/
def u32sub (a b : Nat) : Nat := (u32 a + 4294967296 - u32 b) % 4294967296

/-- Read one byte of a frame; out-of-range reads yield 0 in the model. -/
def byteAt (buf : List Nat) (i : Nat) : Nat := buf.getD i 0 % 256

/-- Read `n` consecutive bytes of a frame starting at offset `p`. -/
def bytesAt (buf : List Nat) (p n : Nat) : List Nat :=
  (List.range n).map (fun i => byteAt buf (p + i))

/-- Value of the 32-bit field stored at offset `i`, read in the memory
order of `uint32_t` on the little-endian target (struct field access
`dhcpPtr->xid`). -/
def leU32At (buf : List Nat) (i : Nat) : Nat :=
  byteAt buf i + 256 * byteAt buf (i + 1) + 65536 * byteAt buf (i + 2) +
    16777216 * byteAt buf (i + 3)

/-- Transaction id embedded in a received frame (`dhcpPtr->xid`, the 32-bit
field 4 bytes into the BOOTP header). -/
def frameXid (buf : List Nat) : Nat := leU32At buf (UDP_DATA_P + 4)

/-- Modelled from the spec: the full 16-bit big-endian UDP source port of a
frame, per the RFC 2131/UDP framing the spec names (net.h is not under
src/).  The code itself inspects only the low octet. -/
def udpSrcPort (buf : List Nat) : Nat :=
  256 * byteAt buf UDP_SRC_PORT_H_P + byteAt buf UDP_SRC_PORT_L_P

/-- Fixed-width copy: the C code copies exactly `n` bytes out of an
`n`-byte array (copyIp / copyMac). -/
def padTo (n : Nat) (xs : List Nat) : List Nat :=
  (xs ++ List.replicate n 0).take n

/-- Serialize a uint32_t value in the memory order of the little-endian
target (the struct assignment `dhcpPtr->xid = currentXid`). -/
def natToLe4 (x : Nat) : List Nat :=
  [x % 256, x / 256 % 256, x / 65536 % 256, x / 16777216 % 256]

/-- The mutable globals of the DHCP engine: EtherCard's static network
configuration arrays and the static session variables of dhcp.cpp. -/
structure DhcpGlobals where
  dhcpState : Nat
  currentXid : Nat
  stateTimer : Nat
  leaseStart : Nat
  leaseTime : Nat
  myip : List Nat
  netmask : List Nat
  broadcastip : List Nat
  gwip : List Nat
  dhcpip : List Nat
  dnsip : List Nat
  hisip : List Nat
  mymac : List Nat
  hostname : List Nat
  dhcpCustomOptionNum : Nat
  callbackRegistered : Bool
  usingDhcp : Bool
  deriving Repr, DecidableEq

/-- One invocation of the registered DHCP option callback:
`dhcpCustomOptionCallback(option, ptr, optionLen)`. -/
structure CallbackEvent where
  option : Nat
  value : List Nat
  len : Nat
  deriving Repr, DecidableEq

/-- Result of one `DhcpStateMachine` step: the new globals, the UDP payload
handed to `udpTransmit` if any, and the callback invocations performed. -/
structure StepResult where
  g : DhcpGlobals
  sent : Option (List Nat)
  callbackCalls : List CallbackEvent
  deriving Repr, DecidableEq

/-- Fixed 236-byte BOOTP header written by send_dhcp_message: op=1,
htype=1, hlen=6, hops=0, xid=currentXid, secs=flags=0, ciaddr filled only
in state BOUND, yiaddr/siaddr/giaddr zero, chaddr = mymac padded to 16,
sname and file zero (the buffer was memset to 0 first). -/
def dhcpHeaderBytes (g : DhcpGlobals) : List Nat :=
  [1, 1, 6, 0] ++ natToLe4 (u32 g.currentXid) ++ [0, 0, 0, 0] ++
    (if g.dhcpState = DHCP_STATE_BOUND then padTo 4 g.myip else [0, 0, 0, 0]) ++
    List.replicate 12 0 ++ padTo 6 g.mymac ++ List.replicate 10 0 ++
    List.replicate 192 0

/-- Option bytes written by send_dhcp_message after the header: magic
cookie, message type (DISCOVER in INIT, else REQUEST), client identifier,
hostname if non-empty, requested-address and server-identifier only when a
request IP pointer was passed, the parameter request list (whose declared
length 8, or 9 with a custom option, exceeds the 7 or 8 bytes actually
written, exactly as in the source), and END. -/
def sendOptionBytes (g : DhcpGlobals) (requestip : Option (List Nat)) : List Nat :=
  [99, 130, 83, 99] ++
    [53, 1, if g.dhcpState = DHCP_STATE_INIT then 1 else 3] ++
    ([61, 7, 1] ++ padTo 6 g.mymac) ++
    (if g.hostname ≠ [] then [12, g.hostname.length] ++ g.hostname else []) ++
    (match requestip with
     | some rip => [50, 4] ++ padTo 4 rip ++ ([54, 4] ++ padTo 4 g.dhcpip)
     | none => []) ++
    ([55, if g.dhcpCustomOptionNum ≠ 0 then 9 else 8] ++
      [1, 2, 3, 4, 6, 42, 119] ++
      (if g.dhcpCustomOptionNum ≠ 0 then [g.dhcpCustomOptionNum] else [])) ++
    [255]

/-- UDP payload transmitted by send_dhcp_message. -/
def send_dhcp_message (g : DhcpGlobals) (requestip : Option (List Nat)) : List Nat :=
  dhcpHeaderBytes g ++ sendOptionBytes g requestip

/-- Option scan of dhcp_received_message_type: a do-while walk from `p`
that returns true when a Message Type option (53) carrying `msgType` is
found, advancing by 2 + declared length and continuing while the cursor is
below the frame length.  Structural fuel bounds the walk; a fuel of
`len + 1` dominates the loop, whose cursor strictly increases. -/
def scanMsgType (buf : List Nat) (len msgType : Nat) : Nat → Nat → Bool
  | 0, _ => false
  | fuel + 1, p =>
    let option := byteAt buf p
    let optionLen := byteAt buf (p + 1)
    if option = 53 ∧ byteAt buf (p + 2) = msgType then true
    else if p + 2 + optionLen < len then scanMsgType buf len msgType fuel (p + 2 + optionLen)
    else false

/-- dhcp_received_message_type: a frame is accepted as carrying message
type `msgType` only when its length is at least 70, the byte at
UDP_SRC_PORT_L_P equals 67 and the embedded transaction id equals the
session's; only then are the options scanned. -/
def dhcp_received_message_type (buf : List Nat) (len xid msgType : Nat) : Bool :=
  if 70 ≤ len ∧ byteAt buf UDP_SRC_PORT_L_P = 67 ∧ frameXid buf = xid then
    scanMsgType buf len msgType (len + 1) (UDP_DATA_P + DHCP_HEADER_SIZE + 4)
  else false

/-- Option scan of process_dhcp_offer: first Server Identifier option (54)
found, if any, yields the 4 bytes of its value. -/
def scanServerId (buf : List Nat) (len : Nat) : Nat → Nat → Option (List Nat)
  | 0, _ => none
  | fuel + 1, p =>
    let option := byteAt buf p
    let optionLen := byteAt buf (p + 1)
    if option = 54 then some (bytesAt buf (p + 2) 4)
    else if p + 2 + optionLen < len then scanServerId buf len fuel (p + 2 + optionLen)
    else none

/-- process_dhcp_offer: copy the offered address out of yiaddr and record
the server identifier into dhcpip when present. -/
def process_dhcp_offer (g : DhcpGlobals) (buf : List Nat) (len : Nat) :
    List Nat × DhcpGlobals :=
  (bytesAt buf (UDP_DATA_P + 16) 4,
   match scanServerId buf len (len + 1) (UDP_DATA_P + DHCP_HEADER_SIZE + 4) with
   | some sip => { g with dhcpip := sip }
   | none => g)

/-- Effect of one recognized option in the ACK switch of process_dhcp_ack.
`fourBytes` are the four bytes at the start of the option value: the lease
branch reads exactly ptr[0..3] regardless of the declared option length,
and the address branches copy exactly four bytes.  A lease or renewal time
that differs from the infinite sentinel is scaled to milliseconds in
uint32_t arithmetic. -/
def applyAckOption (g : DhcpGlobals) (option : Nat) (fourBytes : List Nat) :
    DhcpGlobals :=
  if option = 1 then { g with netmask := fourBytes }
  else if option = 3 then { g with gwip := fourBytes }
  else if option = 6 then { g with dnsip := fourBytes }
  else if option = 51 ∨ option = 58 then
    let v := fourBytes.foldl (fun acc b => acc * 256 + b) 0
    { g with leaseTime := if v = DHCP_INFINITE_LEASE then v else v * 1000 % 4294967296 }
  else g

/-- Option walk of process_dhcp_ack: apply the switch effect, then record
the unconditional indirect call
`dhcpCustomOptionCallback(option, ptr, optionLen)` (the source performs it
for every option, END included, with no NULL check), advance past the
value, and continue while not done and the cursor is below the frame
length. -/
def ackWalk (buf : List Nat) (len : Nat) :
    Nat → Nat → DhcpGlobals → DhcpGlobals × List CallbackEvent
  | 0, _, g => (g, [])
  | fuel + 1, p, g =>
    let option := byteAt buf p
    let optionLen := byteAt buf (p + 1)
    let g1 := applyAckOption g option (bytesAt buf (p + 2) 4)
    let ev : CallbackEvent := ⟨option, bytesAt buf (p + 2) optionLen, optionLen⟩
    if option ≠ 255 ∧ p + 2 + optionLen < len then
      let rest := ackWalk buf len fuel (p + 2 + optionLen) g1
      (rest.1, ev :: rest.2)
    else (g1, [ev])

/-- process_dhcp_ack: take the allocated address from yiaddr, then walk the
option list. -/
def process_dhcp_ack (g : DhcpGlobals) (buf : List Nat) (len : Nat) :
    DhcpGlobals × List CallbackEvent :=
  ackWalk buf len (len + 1) (UDP_DATA_P + DHCP_HEADER_SIZE + 4)
    { g with myip := bytesAt buf (UDP_DATA_P + 16) 4 }

/-- EtherCard::DhcpStateMachine: one step, driven by the received frame in
the buffer (or a tick with len = 0) and the current clock value `now`. -/
def DhcpStateMachine (g : DhcpGlobals) (now : Nat) (buf : List Nat) (len : Nat) :
    StepResult :=
  if g.dhcpState = DHCP_STATE_INIT then
    let g1 := { g with currentXid := u32 now, myip := [0, 0, 0, 0] }
    let msg := send_dhcp_message g1 none
    { g := { g1 with dhcpState := DHCP_STATE_SELECTING, stateTimer := u32 now },
      sent := some msg, callbackCalls := [] }
  else if g.dhcpState = DHCP_STATE_SELECTING then
    if dhcp_received_message_type buf len g.currentXid 2 = true then
      let offered := process_dhcp_offer g buf len
      let msg := send_dhcp_message offered.2 (some offered.1)
      { g := { offered.2 with dhcpState := DHCP_STATE_REQUESTING, stateTimer := u32 now },
        sent := some msg, callbackCalls := [] }
    else if u32sub now g.stateTimer > DHCP_REQUEST_TIMEOUT then
      { g := { g with dhcpState := DHCP_STATE_INIT }, sent := none, callbackCalls := [] }
    else { g := g, sent := none, callbackCalls := [] }
  else if g.dhcpState = DHCP_STATE_REQUESTING ∨ g.dhcpState = DHCP_STATE_RENEWING then
    if dhcp_received_message_type buf len g.currentXid 5 = true then
      let acked := process_dhcp_ack g buf len
      { g := { acked.1 with leaseStart := u32 now, dhcpState := DHCP_STATE_BOUND },
        sent := none, callbackCalls := acked.2 }
    else if u32sub now g.stateTimer > DHCP_REQUEST_TIMEOUT then
      { g := { g with dhcpState := DHCP_STATE_INIT }, sent := none, callbackCalls := [] }
    else { g := g, sent := none, callbackCalls := [] }
  else if g.dhcpState = DHCP_STATE_BOUND then
    if g.leaseTime ≠ DHCP_INFINITE_LEASE ∧ u32sub now g.leaseStart ≥ g.leaseTime then
      let msg := send_dhcp_message g (some g.myip)
      { g := { g with dhcpState := DHCP_STATE_RENEWING, stateTimer := u32 now },
        sent := some msg, callbackCalls := [] }
    else { g := g, sent := none, callbackCalls := [] }
  else { g := g, sent := none, callbackCalls := [] }

/-- toAsciiHex of dhcp.cpp: low nibble rendered as an ASCII hex digit. -/
def toAsciiHex (b : Nat) : Nat :=
  let c := b % 16
  if c ≤ 9 then c + 48 else c + 55

/-- EtherCard::dhcpSetup: set using_dhcp, install the hostname (custom name
truncated to 32 characters, or the default name with its last two
characters replaced by the hex digits of the last MAC byte), set the state
to INIT, and return true.  The function performs no polling and no waiting:
this is the entire body of the source function. -/
def dhcpSetup (g : DhcpGlobals) (hname : Option (List Nat)) : DhcpGlobals × Bool :=
  let g1 := { g with usingDhcp := true }
  let g2 :=
    match hname with
    | some h => { g1 with hostname := h.take 32 }
    | none =>
      let hn := g1.hostname
      let n := hn.length
      let hn1 := hn.set (n - 2) (toAsciiHex (byteAt g1.mymac 5 / 16))
      let hn2 := hn1.set (n - 1) (toAsciiHex (byteAt g1.mymac 5))
      { g1 with hostname := hn2 }
  ({ g2 with dhcpState := DHCP_STATE_INIT }, true)

/-- First statement of EtherCard::dhcpRelease: the state becomes RELEASING
before the RELEASE message is built and sent. -/
def dhcpReleaseEnter (g : DhcpGlobals) : DhcpGlobals :=
  { g with dhcpState := DHCP_STATE_RELEASING }

/-- UDP payload of the RELEASE message built by dhcpRelease: header with
ciaddr = myip and siaddr = dhcpip, then cookie, message type RELEASE,
client identifier, server identifier and END. -/
def releaseMessage (g : DhcpGlobals) : List Nat :=
  [1, 1, 6, 0] ++ natToLe4 (u32 g.currentXid) ++ [0, 0, 0, 0] ++
    padTo 4 g.myip ++ [0, 0, 0, 0] ++ padTo 4 g.dhcpip ++ [0, 0, 0, 0] ++
    padTo 6 g.mymac ++ List.replicate 10 0 ++ List.replicate 192 0 ++
    [99, 130, 83, 99] ++ [53, 1, 7] ++ ([61, 7, 1] ++ padTo 6 g.mymac) ++
    ([54, 4] ++ padTo 4 g.dhcpip) ++ [255]

/-- EtherCard::dhcpRelease: enter RELEASING, transmit the RELEASE message
carrying the current address and server identifier, zero the configuration
(myip, netmask, broadcastip, gwip, dhcpip, dnsip, hisip), and finish in
RELEASED with using_dhcp cleared. -/
def dhcpRelease (g : DhcpGlobals) : DhcpGlobals × List Nat :=
  let g1 := dhcpReleaseEnter g
  let msg := releaseMessage g1
  let g2 := { g1 with
    myip := [0, 0, 0, 0], netmask := [0, 0, 0, 0], broadcastip := [0, 0, 0, 0],
    gwip := [0, 0, 0, 0], dhcpip := [0, 0, 0, 0], dnsip := [0, 0, 0, 0],
    hisip := [0, 0, 0, 0] }
  ({ g2 with dhcpState := DHCP_STATE_RELEASED, usingDhcp := false }, msg)

/-- Client address field of a transmitted message: bytes 12..15 of the
BOOTP header. -/
def ciaddrOf (msg : List Nat) : List Nat := (msg.drop 12).take 4

/-- TLV observer for transmitted messages: the in-order (tag, value) pairs
of the option area (after the 236-byte header and 4-byte cookie), stopping
at tag 255 or exhaustion.  A fuel of 600 dominates every message the engine
builds, which stays well under 300 bytes. -/
def optWalk : Nat → List Nat → List (Nat × List Nat)
  | 0, _ => []
  | _, [] => []
  | fuel + 1, t :: rest =>
    if t = 255 then [(255, [])]
    else
      match rest with
      | [] => [(t, [])]
      | l :: rest2 => (t, rest2.take l) :: optWalk fuel (rest2.drop l)

/-- Options of a transmitted message, as (tag, value) pairs. -/
def msgOptions (msg : List Nat) : List (Nat × List Nat) :=
  optWalk 600 (msg.drop 240)

/-- Look up the first option with the given tag in a transmitted message. -/
def msgFindOption (msg : List Nat) (tag : Nat) : Option (Nat × List Nat) :=
  (msgOptions msg).find? (fun p => p.1 == tag)

/-- All-zero IPv4 address. -/
def zeroIp : List Nat := [0, 0, 0, 0]

/-- Hardware address AA:BB:CC:DD:EE:FF used by the spec's scenarios. -/
def macScenario : List Nat := [170, 187, 204, 221, 238, 255]

/-- Session in SELECTING with transaction id 1, fresh state timer. -/
def gSel1 : DhcpGlobals :=
  ⟨DHCP_STATE_SELECTING, 1, 0, 0, 0, zeroIp, zeroIp, zeroIp, zeroIp, zeroIp,
    zeroIp, zeroIp, macScenario, [], 0, false, true⟩

/-- Session in SELECTING with transaction id 5, fresh state timer. -/
def gSel5 : DhcpGlobals :=
  ⟨DHCP_STATE_SELECTING, 5, 0, 0, 0, zeroIp, zeroIp, zeroIp, zeroIp, zeroIp,
    zeroIp, zeroIp, macScenario, [], 0, false, true⟩

/-- Session in REQUESTING with transaction id 1 and no registered option
callback (dhcpCustomOptionCallback is still NULL). -/
def gReqNoCb : DhcpGlobals :=
  ⟨DHCP_STATE_REQUESTING, 1, 0, 0, 0, zeroIp, zeroIp, zeroIp, zeroIp, zeroIp,
    zeroIp, zeroIp, macScenario, [], 0, false, true⟩

/-- Session in BOUND at 192.168.1.50 from server 192.168.1.1 with a
finite 1000 ms lease that started at clock 0. -/
def gBound : DhcpGlobals :=
  ⟨DHCP_STATE_BOUND, 7, 0, 0, 1000, [192, 168, 1, 50], [255, 255, 255, 0],
    zeroIp, [192, 168, 1, 1], [192, 168, 1, 1], zeroIp, zeroIp, macScenario,
    [], 0, false, true⟩

/-- Session in BOUND holding an infinite lease. -/
def gBoundInf : DhcpGlobals :=
  ⟨DHCP_STATE_BOUND, 7, 0, 0, DHCP_INFINITE_LEASE, [192, 168, 1, 50],
    [255, 255, 255, 0], zeroIp, [192, 168, 1, 1], [192, 168, 1, 1], zeroIp,
    zeroIp, macScenario, [], 0, false, true⟩

/-- Session in RELEASING. -/
def gReleasing : DhcpGlobals :=
  ⟨DHCP_STATE_RELEASING, 7, 0, 0, 0, [192, 168, 1, 50], zeroIp, zeroIp,
    zeroIp, [192, 168, 1, 1], zeroIp, zeroIp, macScenario, [], 0, false, true⟩

/-- A 293-byte OFFER frame whose UDP source port is 323 (high octet 1, low
octet 67), transaction id 1, message type 2, server identifier
192.168.1.1 at the options. -/
def offerFrame323 : List Nat :=
  List.replicate 34 0 ++ [1, 67] ++ List.replicate 10 0 ++ [1, 0, 0, 0] ++
    List.replicate 232 0 ++ [53, 1, 2, 54, 4, 192, 168, 1, 1, 255, 0]

/-- A 293-byte ACK frame from source port 67, transaction id 1, message
type 5, carrying a 3600-second lease time option (51) and END. -/
def ackFrame : List Nat :=
  List.replicate 34 0 ++ [0, 67] ++ List.replicate 10 0 ++ [1, 0, 0, 0] ++
    List.replicate 232 0 ++ [53, 1, 5, 51, 4, 0, 0, 14, 16, 255, 0]

/-- A frame whose embedded transaction id differs from the session's makes
dhcp_received_message_type reject it for every message kind: the xid
conjunct of its acceptance test fails. -/
theorem received_false_of_xid_mismatch (buf : List Nat) (len xid k : Nat)
    (h : frameXid buf ≠ xid) : dhcp_received_message_type buf len xid k = false := by
  simp [dhcp_received_message_type, h]

/-- C1: dhcpSetup returns true immediately for every input and leaves the
session in INIT rather than BOUND: the source contains no polling loop and
no 60-second bound, so the boolean result is not tied to reaching BOUND. -/
theorem dhcpSetup_returns_true_immediately (g : DhcpGlobals)
    (hname : Option (List Nat)) :
    (dhcpSetup g hname).2 = true ∧
      (dhcpSetup g hname).1.dhcpState = DHCP_STATE_INIT ∧
      DHCP_STATE_INIT ≠ DHCP_STATE_BOUND :=
  ⟨rfl, rfl, by decide⟩

/-- C2: processing a valid ACK performs one callback invocation per option
(END included) even though no callback was ever registered, mirroring the
source's unguarded indirect call through the NULL function pointer. -/
theorem ack_invokes_callback_without_registration :
    gReqNoCb.callbackRegistered = false ∧
      (DhcpStateMachine gReqNoCb 100 ackFrame 293).callbackCalls =
        [⟨53, [5], 1⟩, ⟨51, [0, 0, 14, 16], 4⟩, ⟨255, [], 0⟩] ∧
      (DhcpStateMachine gReqNoCb 100 ackFrame 293).callbackCalls ≠ [] :=
  ⟨rfl, rfl, by decide⟩

/-- C3: the REQUEST sent on lease expiry from BOUND has ciaddr filled with
the current address but, contrary to the claim and to the source's own
option table, carries a requested-address option (50) and a
server-identifier option (54): the source passes myip instead of NULL to
send_dhcp_message. -/
theorem renewal_request_contains_options_50_54 :
    (DhcpStateMachine gBound 2000 [] 0).g.dhcpState = DHCP_STATE_RENEWING ∧
      ciaddrOf (((DhcpStateMachine gBound 2000 [] 0).sent).getD []) =
        [192, 168, 1, 50] ∧
      msgFindOption (((DhcpStateMachine gBound 2000 [] 0).sent).getD []) 50 =
        some (50, [192, 168, 1, 50]) ∧
      msgFindOption (((DhcpStateMachine gBound 2000 [] 0).sent).getD []) 54 =
        some (54, [192, 168, 1, 1]) :=
  ⟨rfl, rfl, rfl, rfl⟩

/-- C4 counterexample: a frame whose 16-bit UDP source port is 323 (low
octet 67) passes the acceptance test, so acceptance does not require the
UDP source port to equal 67. -/
theorem received_accepts_port_323 :
    dhcp_received_message_type offerFrame323 293 1 2 = true ∧
      udpSrcPort offerFrame323 = 323 ∧ udpSrcPort offerFrame323 ≠ 67 :=
  ⟨rfl, rfl, by decide⟩

/-- C4 (amended): a frame is accepted as a valid message of kind k exactly
when its length is at least 70, the LOW OCTET of its UDP source port equals
67, and its embedded transaction id equals the session's current id, and
the option scan then finds a Message Type option carrying k; a frame
failing any of the three checks is rejected without the scan. -/
theorem dhcp_received_checks_iff (buf : List Nat) (len xid k : Nat) :
    dhcp_received_message_type buf len xid k = true ↔
      (70 ≤ len ∧ byteAt buf UDP_SRC_PORT_L_P = 67 ∧ frameXid buf = xid) ∧
        scanMsgType buf len k (len + 1) (UDP_DATA_P + DHCP_HEADER_SIZE + 4) = true := by
  by_cases h : 70 ≤ len ∧ byteAt buf UDP_SRC_PORT_L_P = 67 ∧ frameXid buf = xid
  · simp [dhcp_received_message_type, h]
  · simp [dhcp_received_message_type, h]

/-- C5 counterexample: a step in SELECTING driven by a frame with a
mismatched transaction id does change the state when the 10-second timeout
has elapsed: at elapsed 10001 ms the machine restarts to INIT. -/
theorem mismatched_xid_frame_step_changes_state :
    gSel5.dhcpState = DHCP_STATE_SELECTING ∧
      frameXid offerFrame323 ≠ gSel5.currentXid ∧
      (DhcpStateMachine gSel5 10001 offerFrame323 293).g.dhcpState =
        DHCP_STATE_INIT ∧
      DHCP_STATE_INIT ≠ DHCP_STATE_SELECTING :=
  ⟨rfl, by decide, rfl, by decide⟩

/-- C5 (amended): in SELECTING or REQUESTING a frame with a mismatched
transaction id is silently dropped — the step leaves the whole state
unchanged and transmits nothing — provided the 10-second state timeout has
not yet elapsed; a timed-out step restarts to INIT as any tick would. -/
theorem mismatched_xid_no_change_before_timeout (g : DhcpGlobals) (now : Nat)
    (buf : List Nat) (len : Nat)
    (hst : g.dhcpState = DHCP_STATE_SELECTING ∨ g.dhcpState = DHCP_STATE_REQUESTING)
    (hmis : frameXid buf ≠ g.currentXid)
    (ht : u32sub now g.stateTimer ≤ DHCP_REQUEST_TIMEOUT) :
    (DhcpStateMachine g now buf len).g = g ∧
      (DhcpStateMachine g now buf len).sent = none := by
  have h2 := received_false_of_xid_mismatch buf len g.currentXid 2 hmis
  have h5 := received_false_of_xid_mismatch buf len g.currentXid 5 hmis
  have ht2 : ¬ u32sub now g.stateTimer > DHCP_REQUEST_TIMEOUT := by omega
  rcases hst with h | h <;>
    simp [DhcpStateMachine, h, DHCP_STATE_INIT, DHCP_STATE_SELECTING,
      DHCP_STATE_REQUESTING, DHCP_STATE_RENEWING, DHCP_STATE_BOUND, h2, h5, ht2]

/-- C5 witness: a mismatched frame at elapsed 5000 ms in SELECTING leaves
the state untouched and sends nothing. -/
theorem mismatched_xid_no_change_before_timeout_witness :
    (DhcpStateMachine gSel5 5000 offerFrame323 293).g = gSel5 ∧
      (DhcpStateMachine gSel5 5000 offerFrame323 293).sent = none :=
  mismatched_xid_no_change_before_timeout gSel5 5000 offerFrame323 293
    (Or.inl rfl) (by decide) (by decide)

/-- C6 counterexample: with no packets received, a SELECTING step at
exactly 10000 ms elapsed since state entry does not transition to INIT —
the timeout comparison is strict, so the state is left unchanged. -/
theorem selecting_no_transition_at_exactly_10000 :
    (DhcpStateMachine gSel1 10000 [] 0).g = gSel1 ∧
      (DhcpStateMachine gSel1 10000 [] 0).g.dhcpState = DHCP_STATE_SELECTING ∧
      DHCP_STATE_SELECTING ≠ DHCP_STATE_INIT :=
  ⟨rfl, rfl, by decide⟩

/-- C6 (amended): a SELECTING step with no matching OFFER transitions back
to INIT exactly when strictly more than 10000 ms have elapsed since state
entry (so the first 1-ms tick to restart is at t = 10001 ms). -/
theorem selecting_timeout_strict (g : DhcpGlobals) (now : Nat) (buf : List Nat)
    (len : Nat) (hst : g.dhcpState = DHCP_STATE_SELECTING)
    (hrecv : dhcp_received_message_type buf len g.currentXid 2 = false)
    (ht : u32sub now g.stateTimer > DHCP_REQUEST_TIMEOUT) :
    (DhcpStateMachine g now buf len).g.dhcpState = DHCP_STATE_INIT := by
  simp [DhcpStateMachine, hst, DHCP_STATE_INIT, DHCP_STATE_SELECTING, hrecv, ht]

/-- C6 witness: at 10001 ms with no packet the machine restarts to INIT. -/
theorem selecting_timeout_strict_witness :
    (DhcpStateMachine gSel1 10001 [] 0).g.dhcpState = DHCP_STATE_INIT :=
  selecting_timeout_strict gSel1 10001 [] 0 rfl (by decide) (by decide)

/-- C7: with the infinite-lease sentinel stored, a BOUND step never
transitions to RENEWING — the state and configuration are left unchanged
and nothing is transmitted, for every clock value and every frame. -/
theorem infinite_lease_never_renews (g : DhcpGlobals) (now : Nat)
    (buf : List Nat) (len : Nat) (hl : g.leaseTime = DHCP_INFINITE_LEASE)
    (hb : g.dhcpState = DHCP_STATE_BOUND) :
    (DhcpStateMachine g now buf len).g = g ∧
      (DhcpStateMachine g now buf len).sent = none := by
  simp [DhcpStateMachine, hb, hl, DHCP_STATE_INIT, DHCP_STATE_SELECTING,
    DHCP_STATE_REQUESTING, DHCP_STATE_RENEWING, DHCP_STATE_BOUND]

/-- C7 witness: an infinite lease stays BOUND at an arbitrary late clock. -/
theorem infinite_lease_never_renews_witness :
    (DhcpStateMachine gBoundInf 123456789 [] 0).g = gBoundInf ∧
      (DhcpStateMachine gBoundInf 123456789 [] 0).sent = none :=
  infinite_lease_never_renews gBoundInf 123456789 [] 0 rfl rfl

set_option maxHeartbeats 2000000 in
/-- C8: from any state, dhcpRelease first enters RELEASING, builds a
RELEASE message (type option 7) whose ciaddr is the current address and
whose server-identifier option carries the DHCP server address, then zeroes
the local address, netmask, broadcast, gateway, DHCP server and DNS server,
ending in RELEASED. -/
theorem dhcpRelease_releases_and_zeroes (st xid tmr ls lt : Nat)
    (m0 m1 m2 m3 d0 d1 d2 d3 a0 a1 a2 a3 a4 a5 : Nat)
    (nm bc gw dns his hn : List Nat) (optNum : Nat) (reg ud : Bool) :
    let g : DhcpGlobals :=
      ⟨st, xid, tmr, ls, lt, [m0, m1, m2, m3], nm, bc, gw, [d0, d1, d2, d3],
        dns, his, [a0, a1, a2, a3, a4, a5], hn, optNum, reg, ud⟩
    (dhcpReleaseEnter g).dhcpState = DHCP_STATE_RELEASING ∧
      (dhcpRelease g).1.dhcpState = DHCP_STATE_RELEASED ∧
      ciaddrOf (dhcpRelease g).2 = [m0, m1, m2, m3] ∧
      msgFindOption (dhcpRelease g).2 53 = some (53, [7]) ∧
      msgFindOption (dhcpRelease g).2 54 = some (54, [d0, d1, d2, d3]) ∧
      (dhcpRelease g).1.myip = [0, 0, 0, 0] ∧
      (dhcpRelease g).1.netmask = [0, 0, 0, 0] ∧
      (dhcpRelease g).1.broadcastip = [0, 0, 0, 0] ∧
      (dhcpRelease g).1.gwip = [0, 0, 0, 0] ∧
      (dhcpRelease g).1.dhcpip = [0, 0, 0, 0] ∧
      (dhcpRelease g).1.dnsip = [0, 0, 0, 0] :=
  ⟨rfl, rfl, rfl, rfl, rfl, rfl, rfl, rfl, rfl, rfl, rfl⟩

/-- C9: a state-machine step taken in RELEASING or RELEASED, for any clock
value and any frame, leaves the globals unchanged, transmits nothing and
performs no callback invocation: RELEASED is terminal for the lease. -/
theorem releasing_released_steps_are_noops (g : DhcpGlobals) (now : Nat)
    (buf : List Nat) (len : Nat)
    (hst : g.dhcpState = DHCP_STATE_RELEASING ∨ g.dhcpState = DHCP_STATE_RELEASED) :
    (DhcpStateMachine g now buf len).g = g ∧
      (DhcpStateMachine g now buf len).sent = none ∧
      (DhcpStateMachine g now buf len).callbackCalls = [] := by
  rcases hst with h | h <;>
    simp [DhcpStateMachine, h, DHCP_STATE_INIT, DHCP_STATE_SELECTING,
      DHCP_STATE_REQUESTING, DHCP_STATE_RENEWING, DHCP_STATE_BOUND,
      DHCP_STATE_RELEASING, DHCP_STATE_RELEASED]

/-- C9 witness: a RELEASING step on a full ACK frame changes nothing. -/
theorem releasing_released_steps_are_noops_witness :
    (DhcpStateMachine gReleasing 42 ackFrame 293).g = gReleasing ∧
      (DhcpStateMachine gReleasing 42 ackFrame 293).sent = none ∧
      (DhcpStateMachine gReleasing 42 ackFrame 293).callbackCalls = [] :=
  releasing_released_steps_are_noops gReleasing 42 ackFrame 293 (Or.inl rfl)

/-- C10: a Lease Time (51) or Renewal Time (58) option whose 4-octet
big-endian value v is not the infinite sentinel stores a lease duration of
(v * 1000) mod 2^32 milliseconds, the uint32_t product of the
seconds-to-milliseconds scaling. -/
theorem lease_time_scaled_mod_u32 (g : DhcpGlobals) (opt b0 b1 b2 b3 : Nat)
    (hopt : opt = 51 ∨ opt = 58) (_h0 : b0 < 256) (_h1 : b1 < 256)
    (_h2 : b2 < 256) (_h3 : b3 < 256)
    (hv : ((b0 * 256 + b1) * 256 + b2) * 256 + b3 ≠ 4294967295) :
    (applyAckOption g opt [b0, b1, b2, b3]).leaseTime =
      (((b0 * 256 + b1) * 256 + b2) * 256 + b3) * 1000 % 4294967296 := by
  have hfold : [b0, b1, b2, b3].foldl (fun acc b => acc * 256 + b) 0 =
      ((b0 * 256 + b1) * 256 + b2) * 256 + b3 := by
    simp [List.foldl]
  rcases hopt with h | h <;> subst h <;>
    simp [applyAckOption, DHCP_INFINITE_LEASE, hfold, hv]

/-- C10 witness: the 49.7-day value v = 4294968 seconds aliases to
4294968000 mod 2^32 = 704 milliseconds. -/
theorem lease_time_scaled_mod_u32_witness :
    (applyAckOption gSel1 51 [0, 65, 137, 56]).leaseTime =
      (((0 * 256 + 65) * 256 + 137) * 256 + 56) * 1000 % 4294967296 :=
  lease_time_scaled_mod_u32 gSel1 51 0 65 137 56 (Or.inl rfl) (by decide)
    (by decide) (by decide) (by decide) (by decide)

/-- A scaled finite lease duration is always divisible by 8 modulo 2^32 and
therefore can never collide with the odd infinite-lease sentinel. -/
theorem scaled_lease_never_sentinel (v : Nat) :
    v * 1000 % 4294967296 ≠ DHCP_INFINITE_LEASE := by
  simp only [DHCP_INFINITE_LEASE]
  omega

end EthercardESP
